import Mathlib

/-!
Formal model of `src/main.py`: a small Flask gateway that fronts one remote
JSON document with a 600-second cache and stale fallback, and a custom 5-bit
text encoding used by the `/encoded` endpoint.

The model is a shallow embedding:
* `custom_encode` (main.py lines 28-50) becomes a pure function on the UTF-8
  byte list of the input string; the `while bit_count >= 5` loop becomes
  `drainBits`, the `for byte in input_bytes` loop becomes `encodeLoop`.
* The module-level mutable cache (`last_fetch_time`, `cached_data`,
  `cache_hits`, `cache_misses`, main.py lines 20-23) becomes `CacheState`;
  `fetch_from_github` (lines 52-85) becomes a state-passing function taking
  the current clock value and the outcome of the (at most one) upstream HTTP
  attempt as explicit parameters, and reporting whether that attempt was made.
* HTTP handlers `health_check`, `get_matches` and `get_encoded_matches`
  (lines 101-190) become functions producing a status code and a JSON body;
  the `json.dumps` call of the `/encoded` handler is modelled by
  `Json.dumps`.
-/

namespace FootballApi

/-! ## The custom encoder -/

/-- The 32-symbol alphabet of `custom_encode` (main.py line 29). -/
def charset : List Char := "ABCDEFGHIJKLMNOPQRSTUVWXYZabcdef".toList

/-- The UTF-8 byte sequence of a string, as natural numbers below 256.
Models `input_string.encode('utf-8')` (main.py line 30); uses the reference
UTF-8 encoder `String.utf8EncodeChar` of the Lean core library. -/
def utf8Bytes (s : String) : List Nat :=
  (s.data.flatMap String.utf8EncodeChar).map UInt8.toNat

/-- The inner `while bit_count >= 5` loop of `custom_encode`
(main.py lines 38-42): repeatedly take the top 5 bits of `bit_buffer`,
append the corresponding alphabet symbol, and mask the buffer down to the
remaining `bit_count` bits. -/
def drainBits (output : List Char) (bit_buffer bit_count : Nat) :
    List Char × Nat × Nat :=
  if h : 5 ≤ bit_count then
    let bc := bit_count - 5
    let value := (bit_buffer >>> bc) &&& 0x1F
    drainBits (output ++ [charset.getD value 'A'])
      (bit_buffer &&& ((1 <<< bc) - 1)) bc
  else
    (output, bit_buffer, bit_count)
termination_by bit_count
decreasing_by omega

/-- The outer `for byte in input_bytes` loop of `custom_encode`
(main.py lines 35-42): shift each byte into the bit buffer and drain
complete 5-bit groups. -/
def encodeLoop : List Nat → List Char → Nat → Nat → List Char × Nat × Nat
  | [], output, bit_buffer, bit_count => (output, bit_buffer, bit_count)
  | byte :: rest, output, bit_buffer, bit_count =>
    let s := drainBits output ((bit_buffer <<< 8) ||| byte) (bit_count + 8)
    encodeLoop rest s.1 s.2.1 s.2.2

/-- `custom_encode` (main.py lines 28-50): consume the UTF-8 bitstream in
5-bit groups; if 1-4 bits remain at the end, left-shift them to a full 5-bit
group, emit its symbol, and append one literal padding character. -/
def custom_encode (input_string : String) : String :=
  let s := encodeLoop (utf8Bytes input_string) [] 0 0
  let output := s.1
  let bit_buffer := s.2.1
  let bit_count := s.2.2
  if 0 < bit_count then
    let shifted := bit_buffer <<< (5 - bit_count)
    let value := shifted &&& 0x1F
    String.mk (output ++ [charset.getD value 'A', '='])
  else
    String.mk output

/-- The value of a byte list read as a base-256 number, most significant byte
first: the numeric value of the whole input bitstream. -/
def base256 (bytes : List Nat) : Nat :=
  bytes.foldl (fun acc b => acc * 256 + b) 0

/-! ## The cache fetcher -/

/-- JSON documents, as produced by `response.json()`. Numbers are modelled as
integers (no claim depends on fractional payload values). -/
inductive Json where
  | obj (fields : List (String × Json))
  | arr (elems : List Json)
  | str (s : String)
  | num (n : Int)
  | boolean (b : Bool)
  | null

/-- Python truthiness of a parsed JSON value: empty dict/list/string, zero,
`False` and `None` are falsy. This is the test applied to `cached_data` by
`if cached_data and ...` (line 59) and `if cached_data:` (line 81). -/
def Json.truthy : Json → Bool
  | .obj fields => !fields.isEmpty
  | .arr elems => !elems.isEmpty
  | .str s => !s.isEmpty
  | .num n => n != 0
  | .boolean b => b
  | .null => false

/-- The module-level mutable state of main.py lines 20-23.
`cached_data = None` is `none`; `time.time()` values are modelled in whole
seconds. -/
structure CacheState where
  last_fetch_time : Nat
  cached_data : Option Json
  cache_hits : Nat
  cache_misses : Nat

/-- The state at process start: `last_fetch_time = 0`, `cached_data = None`,
both counters zero (main.py lines 20-23). -/
def initialState : CacheState := ⟨0, none, 0, 0⟩

/-- `CACHE_DURATION = 600` (main.py line 19). -/
def CACHE_DURATION : Nat := 600

/-- Outcome of one upstream attempt, i.e. `requests.get(GITHUB_JSON_URL,
timeout=10)` followed by `raise_for_status()` and `response.json()`
(main.py lines 68-71). `failure detail` covers every
`requests.exceptions.RequestException`: network error, timeout, non-2xx
status, and an unparsable JSON body; `detail` is the exception text
`str(e)`. -/
inductive UpstreamResult where
  | success (data : Json)
  | failure (detail : String)

/-- What one call of `fetch_from_github` does: the value returned or the
exception propagated (`.error detail` models `raise`), the cache state after
the call, and whether the upstream HTTP request of line 68 was issued. -/
structure FetchOutcome where
  result : Except String Json
  state : CacheState
  upstreamCalled : Bool

/-- Python truthiness of the `cached_data` global: `None` is falsy, a stored
document is as truthy as its JSON value. -/
def truthyData : Option Json → Bool
  | none => false
  | some d => d.truthy

/-- The cache-hit condition of main.py line 59:
`cached_data and (current_time - last_fetch_time) < CACHE_DURATION`. -/
def cacheValid (st : CacheState) (current_time : Nat) : Bool :=
  truthyData st.cached_data &&
    decide (current_time - st.last_fetch_time < CACHE_DURATION)

/-- The `try/except` part of `fetch_from_github` (main.py lines 65-85):
increment `cache_misses`, attempt the upstream fetch; on success store the
document and the fetch time; on failure fall back to a truthy `cached_data`
if present, else re-raise the exception. -/
def missPath (st : CacheState) (current_time : Nat) (upstream : UpstreamResult) :
    FetchOutcome :=
  let st1 : CacheState := { st with cache_misses := st.cache_misses + 1 }
  match upstream with
  | .success data =>
    { result := .ok data,
      state := { st1 with last_fetch_time := current_time,
                          cached_data := some data },
      upstreamCalled := true }
  | .failure detail =>
    match st1.cached_data with
    | some data =>
      if data.truthy then
        { result := .ok data, state := st1, upstreamCalled := true }
      else
        { result := .error detail, state := st1, upstreamCalled := true }
    | none =>
      { result := .error detail, state := st1, upstreamCalled := true }

/-- `fetch_from_github` (main.py lines 52-85): serve a truthy cached document
younger than `CACHE_DURATION` (incrementing `cache_hits`, no upstream call),
otherwise take the miss path. -/
def fetch_from_github (st : CacheState) (current_time : Nat)
    (upstream : UpstreamResult) : FetchOutcome :=
  match st.cached_data with
  | some data =>
    if data.truthy &&
        decide (current_time - st.last_fetch_time < CACHE_DURATION) then
      { result := .ok data,
        state := { st with cache_hits := st.cache_hits + 1 },
        upstreamCalled := false }
    else missPath st current_time upstream
  | none => missPath st current_time upstream

/-! ## The HTTP handlers -/

/-- `dict.get(key)` / `dict.get(key, default)` on a JSON object, as used on
the fetched document (`data.get('matches_count', 0)` etc.). On a non-object
the handlers would raise in Python and land in the same generic `except`
branch; the claims below only concern fetch errors, where `data.get` is
never reached. -/
def Json.get : Json → String → Option Json
  | .obj fields, key => (fields.find? (fun kv => kv.1 == key)).map (fun kv => kv.2)
  | _, _ => none

/-- An HTTP response: status code plus JSON body. -/
structure HttpResponse where
  status : Nat
  body : Json

/-- The `/health` handler `health_check` (main.py lines 101-128). `now` is
the clock value used both inside `fetch_from_github` and for the handler's
own `time.time()` read; `tstamp` models `datetime.now().isoformat()`. On a
fetch exception the 503 body carries `str(e)` in its `error` field. -/
def health_check (st : CacheState) (now : Nat) (upstream : UpstreamResult)
    (tstamp : String) : HttpResponse :=
  let out := fetch_from_github st now upstream
  match out.result with
  | .ok data =>
    { status := 200,
      body := .obj
        [("status", .str "healthy"),
         ("source", .str "online"),
         ("cache", .obj
           [("enabled", .boolean true),
            ("duration_seconds", .num (CACHE_DURATION : Int)),
            ("current_age_seconds",
              .num (if out.state.last_fetch_time ≠ 0 then
                      ((now - out.state.last_fetch_time : Nat) : Int)
                    else 0)),
            ("hits", .num (out.state.cache_hits : Int)),
            ("misses", .num (out.state.cache_misses : Int))]),
         ("matches_count", (data.get "matches_count").getD (.num 0)),
         ("last_updated", (data.get "last_updated").getD .null),
         ("timestamp", .str tstamp)] }
  | .error e =>
    { status := 503,
      body := .obj
        [("status", .str "degraded"),
         ("source", .str "offline"),
         ("error", .str e),
         ("timestamp", .str tstamp)] }

/-- The `/matches` handler `get_matches` (main.py lines 130-156). On any
exception the 503 body carries only the fixed generic message. -/
def get_matches (st : CacheState) (now : Nat) (upstream : UpstreamResult)
    (tstamp : String) : HttpResponse :=
  let out := fetch_from_github st now upstream
  match out.result with
  | .ok data =>
    { status := 200,
      body := .obj
        [("success", .boolean true),
         ("last_updated", (data.get "last_updated").getD .null),
         ("matches_count", (data.get "matches_count").getD (.num 0)),
         ("cache_info", .obj
           [("age_seconds", .num ((now - out.state.last_fetch_time : Nat) : Int)),
            ("max_age_seconds", .num (CACHE_DURATION : Int))]),
         ("data", (data.get "data").getD (.arr []))] }
  | .error _ =>
    { status := 503,
      body := .obj
        [("success", .boolean false),
         ("error", .str "Failed to fetch matches data"),
         ("timestamp", .str tstamp)] }

/-- One lowercase hexadecimal digit, as used by `json.dumps` in `\uXXXX`
escapes. -/
def hexDigit (n : Nat) : Char := "0123456789abcdef".toList.getD n '0'

/-- Four lowercase hexadecimal digits of a value below 0x10000. -/
def hex4 (n : Nat) : String :=
  String.mk [hexDigit (n / 4096 % 16), hexDigit (n / 256 % 16),
             hexDigit (n / 16 % 16), hexDigit (n % 16)]

/-- How `json.dumps` (default `ensure_ascii=True`) renders one character of
a JSON string: backslash-escape the quote, the backslash and the short
control escapes, `\uXXXX` for every other character outside printable ASCII
(0x20-0x7e), with a surrogate pair above 0xFFFF; all else verbatim. -/
def escapeChar (c : Char) : String :=
  if c = '"' then "\\\""
  else if c = '\\' then "\\\\"
  else if c = '\n' then "\\n"
  else if c = '\r' then "\\r"
  else if c = '\t' then "\\t"
  else if c.toNat = 8 then "\\b"
  else if c.toNat = 12 then "\\f"
  else if c.toNat < 0x20 ∨ 0x7e < c.toNat then
    if c.toNat ≤ 0xffff then "\\u" ++ hex4 c.toNat
    else
      "\\u" ++ hex4 (0xd800 + (c.toNat - 0x10000) / 1024) ++
      "\\u" ++ hex4 (0xdc00 + (c.toNat - 0x10000) % 1024)
  else String.singleton c

/-- A JSON string literal as rendered by `json.dumps`. -/
def dumpsString (s : String) : String :=
  "\"" ++ String.join (s.data.map escapeChar) ++ "\""

mutual

/-- `json.dumps(data)` with default arguments, as called by the `/encoded`
handler (main.py line 165): item separator `", "`, key separator `": "`,
ASCII-only output. -/
def Json.dumps : Json → String
  | .obj fields => "\x7b" ++ String.intercalate ", " (dumpsFields fields) ++ "\x7d"
  | .arr elems => "[" ++ String.intercalate ", " (dumpsElems elems) ++ "]"
  | .str s => dumpsString s
  | .num n => toString n
  | .boolean b => if b then "true" else "false"
  | .null => "null"

/-- The rendered `"key": value` members of a JSON object. -/
def dumpsFields : List (String × Json) → List String
  | [] => []
  | (k, v) :: rest => (dumpsString k ++ ": " ++ Json.dumps v) :: dumpsFields rest

/-- The rendered elements of a JSON array. -/
def dumpsElems : List Json → List String
  | [] => []
  | v :: rest => Json.dumps v :: dumpsElems rest

end

/-- The `/encoded` handler `get_encoded_matches` (main.py lines 158-190):
serialize the fetched document with `json.dumps`, run it through
`custom_encode`, and report both lengths. On any exception the 503 body
carries only the fixed generic message of line 188. -/
def get_encoded_matches (st : CacheState) (now : Nat) (upstream : UpstreamResult)
    (tstamp : String) : HttpResponse :=
  let out := fetch_from_github st now upstream
  match out.result with
  | .ok data =>
    let json_string := Json.dumps data
    let encoded_data := custom_encode json_string
    { status := 200,
      body := .obj
        [("success", .boolean true),
         ("last_updated", (data.get "last_updated").getD .null),
         ("matches_count", (data.get "matches_count").getD (.num 0)),
         ("cache_info", .obj
           [("age_seconds", .num ((now - out.state.last_fetch_time : Nat) : Int)),
            ("max_age_seconds", .num (CACHE_DURATION : Int))]),
         ("encoded_data", .str encoded_data),
         ("original_length", .num (json_string.length : Int)),
         ("encoded_length", .num (encoded_data.length : Int))] }
  | .error _ =>
    { status := 503,
      body := .obj
        [("success", .boolean false),
         ("error", .str "Failed to encode matches data"),
         ("timestamp", .str tstamp)] }

/-! ## Helper lemmas: the encoder loops -/

/-- The alphabet has 32 symbols. -/
theorem charset_length : charset.length = 32 := by decide

/-- The padding character is not an alphabet symbol. -/
theorem pad_not_mem_charset : '=' ∉ charset := by decide

/-- Indexing the alphabet with a 5-bit value yields an alphabet symbol. -/
theorem charset_getD_mem (v : Nat) (h : v < 32) : charset.getD v 'A' ∈ charset := by
  have hlen : charset.length = 32 := charset_length
  rw [List.getD_eq_getElem?_getD, List.getElem?_eq_getElem (by omega)]
  exact List.getElem_mem _

/-- `(bit_buffer << 8) | byte` is `bit_buffer * 256 + byte` when the byte is
in range: the shifted buffer has zero low bits. -/
theorem shiftLeft8_or (a b : Nat) (h : b < 256) : a <<< 8 ||| b = a * 256 + b := by
  rw [Nat.shiftLeft_eq, Nat.mul_comm a, ← Nat.mul_add_lt_is_or h, Nat.mul_comm]

/-- Masking with `0x1F` keeps the value below 32. -/
theorem and_31_lt (x : Nat) : x &&& 31 < 32 := by
  have h := Nat.and_pow_two_sub_one_eq_mod x 5
  norm_num at h
  rw [h]
  exact Nat.mod_lt _ (by norm_num)

/-- Invariant of the inner while loop: starting from a buffer of `bc` known
bits, `drainBits` appends exactly `bc / 5` alphabet symbols to the output and
leaves the low `bc % 5` bits in the buffer. -/
theorem drainBits_spec (bc : Nat) :
    ∀ output bb, bb < 2 ^ bc →
      ∃ mid, drainBits output bb bc = (output ++ mid, bb % 2 ^ (bc % 5), bc % 5) ∧
        mid.length = bc / 5 ∧ ∀ c ∈ mid, c ∈ charset := by
  induction bc using Nat.strong_induction_on with
  | _ bc ih =>
    intro output bb hbb
    by_cases h : 5 ≤ bc
    · have hmodlt : bb % 2 ^ (bc - 5) < 2 ^ (bc - 5) := Nat.mod_lt _ (Nat.two_pow_pos _)
      obtain ⟨mid1, heq, hlen, hmem⟩ :=
        ih (bc - 5) (by omega)
          (output ++ [charset.getD ((bb >>> (bc - 5)) &&& 31) 'A'])
          (bb % 2 ^ (bc - 5)) hmodlt
      refine ⟨charset.getD ((bb >>> (bc - 5)) &&& 31) 'A' :: mid1, ?_, ?_, ?_⟩
      · rw [drainBits]
        rw [dif_pos h]
        simp only [Nat.one_shiftLeft, Nat.and_pow_two_sub_one_eq_mod]
        rw [heq]
        have h1 : (bc - 5) % 5 = bc % 5 := by omega
        have h2 : bb % 2 ^ (bc - 5) % 2 ^ (bc % 5) = bb % 2 ^ (bc % 5) :=
          Nat.mod_mod_of_dvd bb (pow_dvd_pow 2 (by omega))
        rw [h1, h2]
        simp
      · simp only [List.length_cons, hlen]
        omega
      · intro c hc
        rcases List.mem_cons.mp hc with h0 | h0
        · rw [h0]; exact charset_getD_mem _ (and_31_lt _)
        · exact hmem c h0
    · refine ⟨[], ?_, ?_, by simp⟩
      · rw [drainBits, dif_neg h]
        rw [Nat.mod_eq_of_lt (show bc < 5 by omega), Nat.mod_eq_of_lt hbb]
        simp
      · rw [Nat.div_eq_of_lt (by omega)]
        rfl

/-- Folding bytes into an accumulator is multiplication by a power of 256
plus the value of the remaining bytes. -/
theorem base256_foldl (bs : List Nat) :
    ∀ a, bs.foldl (fun acc b => acc * 256 + b) a = a * 256 ^ bs.length + base256 bs := by
  induction bs with
  | nil => intro a; simp [base256]
  | cons b rest ih =>
    intro a
    simp only [List.foldl_cons, List.length_cons]
    rw [ih (a * 256 + b)]
    have h : base256 (b :: rest) = b * 256 ^ rest.length + base256 rest := by
      show List.foldl (fun acc c => acc * 256 + c) (0 * 256 + b) rest = _
      rw [ih (0 * 256 + b)]
      ring
    rw [h]
    ring

/-- Peeling one byte off the front of `base256`. -/
theorem base256_cons (b : Nat) (rest : List Nat) :
    base256 (b :: rest) = b * 256 ^ rest.length + base256 rest := by
  show List.foldl (fun acc c => acc * 256 + c) (0 * 256 + b) rest = _
  rw [base256_foldl rest (0 * 256 + b)]
  ring

/-- Reducing the buffer modulo `2 ^ m` before shifting in `e` more bytes does
not change the result modulo `2 ^ f` as long as `f ≤ m + 8 * e`. -/
theorem buffer_mod_step (x r m e f : Nat) (hf : f ≤ m + 8 * e) :
    (x % 2 ^ m * 256 ^ e + r) % 2 ^ f = (x * 256 ^ e + r) % 2 ^ f := by
  have h1 : x % 2 ^ m ≡ x [MOD 2 ^ m] := Nat.mod_modEq x _
  have h2 := h1.mul_right' (256 ^ e)
  have h3 : 2 ^ m * 256 ^ e = 2 ^ (m + 8 * e) := by
    rw [show (256 : Nat) = 2 ^ 8 by norm_num, ← pow_mul, ← pow_add]
  rw [h3] at h2
  have h4 := h2.of_dvd (pow_dvd_pow 2 hf)
  exact h4.add_right r

/-- Invariant of the byte loop: processing `bs` from a clean intermediate
state (`bc < 5` known bits) appends `(bc + 8·|bs|) / 5` alphabet symbols,
leaves `(bc + 8·|bs|) % 5` bits in the buffer, and the buffer holds the
bitstream value modulo that bit count. -/
theorem encodeLoop_spec (bs : List Nat) :
    ∀ output bb bc, (∀ b ∈ bs, b < 256) → bc < 5 → bb < 2 ^ bc →
      ∃ mid, encodeLoop bs output bb bc =
        (output ++ mid,
         (bb * 256 ^ bs.length + base256 bs) % 2 ^ ((bc + 8 * bs.length) % 5),
         (bc + 8 * bs.length) % 5) ∧
        mid.length = (bc + 8 * bs.length) / 5 ∧ ∀ c ∈ mid, c ∈ charset := by
  induction bs with
  | nil =>
    intro output bb bc _ hbc hbb
    refine ⟨[], ?_, ?_, by simp⟩
    · simp only [encodeLoop, List.length_nil, Nat.mul_zero, Nat.add_zero, pow_zero,
        Nat.mul_one, base256, List.foldl_nil]
      rw [Nat.mod_eq_of_lt hbc, Nat.mod_eq_of_lt hbb]
      simp
    · simp only [List.length_nil, Nat.mul_zero, Nat.add_zero]
      rw [Nat.div_eq_of_lt hbc]
  | cons byte rest ih =>
    intro output bb bc hlt hbc hbb
    have hbyte : byte < 256 := hlt byte (by simp)
    have hpow : 2 ^ (bc + 8) = 2 ^ bc * 256 := by rw [pow_add]; norm_num
    have hbb0 : bb * 256 + byte < 2 ^ (bc + 8) := by
      have h1 : (bb + 1) * 256 ≤ 2 ^ bc * 256 := Nat.mul_le_mul_right _ hbb
      omega
    obtain ⟨mid1, heq1, hlen1, hmem1⟩ := drainBits_spec (bc + 8) output (bb * 256 + byte) hbb0
    have hbc1 : (bc + 8) % 5 < 5 := Nat.mod_lt _ (by norm_num)
    have hbb1 : (bb * 256 + byte) % 2 ^ ((bc + 8) % 5) < 2 ^ ((bc + 8) % 5) :=
      Nat.mod_lt _ (Nat.two_pow_pos _)
    obtain ⟨mid2, heq2, hlen2, hmem2⟩ :=
      ih (output ++ mid1) ((bb * 256 + byte) % 2 ^ ((bc + 8) % 5)) ((bc + 8) % 5)
        (fun b hb => hlt b (by simp [hb])) hbc1 hbb1
    refine ⟨mid1 ++ mid2, ?_, ?_, ?_⟩
    · show encodeLoop rest (drainBits output ((bb <<< 8) ||| byte) (bc + 8)).1
          (drainBits output ((bb <<< 8) ||| byte) (bc + 8)).2.1
          (drainBits output ((bb <<< 8) ||| byte) (bc + 8)).2.2 = _
      rw [shiftLeft8_or bb byte hbyte, heq1]
      simp only []
      rw [heq2]
      have harith : ((bc + 8) % 5 + 8 * rest.length) % 5 =
          (bc + 8 * (byte :: rest).length) % 5 := by
        simp only [List.length_cons]
        omega
      have hbuf : ((bb * 256 + byte) % 2 ^ ((bc + 8) % 5) * 256 ^ rest.length +
            base256 rest) % 2 ^ (((bc + 8) % 5 + 8 * rest.length) % 5) =
          ((bb * 256 ^ (byte :: rest).length + base256 (byte :: rest)) %
            2 ^ ((bc + 8 * (byte :: rest).length) % 5)) := by
        rw [buffer_mod_step _ _ _ _ _ (Nat.mod_le _ _)]
        rw [harith]
        congr 1
        rw [base256_cons]
        simp only [List.length_cons]
        ring
      rw [hbuf, harith]
      simp [List.append_assoc]
    · simp only [List.length_append, hlen1, hlen2, List.length_cons]
      omega
    · intro c hc
      rcases List.mem_append.mp hc with h0 | h0
      · exact hmem1 c h0
      · exact hmem2 c h0

/-- Every UTF-8 byte of a string is below 256. -/
theorem utf8Bytes_lt (s : String) : ∀ b ∈ utf8Bytes s, b < 256 := by
  intro b hb
  simp only [utf8Bytes, List.mem_map] at hb
  obtain ⟨u, _, rfl⟩ := hb
  exact u.toNat_lt

/-! ## Helper lemmas: the cache fetcher -/

/-- When the hit condition of line 59 fails, `fetch_from_github` runs its
`try/except` body. -/
theorem fetch_miss (st : CacheState) (t : Nat) (u : UpstreamResult)
    (h : cacheValid st t = false) : fetch_from_github st t u = missPath st t u := by
  unfold fetch_from_github
  unfold cacheValid truthyData at h
  cases hd : st.cached_data with
  | none => rfl
  | some d => rw [hd] at h; simp [h]

/-- The miss path always issues the upstream request of line 68. -/
theorem missPath_called (st : CacheState) (t : Nat) (u : UpstreamResult) :
    (missPath st t u).upstreamCalled = true := by
  unfold missPath
  cases u <;> cases hd : st.cached_data <;> simp [hd]
  split <;> rfl

/-- State change of a successful refresh: new document, new fetch time, one
more miss. -/
theorem missPath_state_success (st : CacheState) (t : Nat) (d : Json) :
    (missPath st t (.success d)).state =
      ⟨t, some d, st.cache_hits, st.cache_misses + 1⟩ := rfl

/-- State change of a failed refresh: only the miss counter moves. -/
theorem missPath_state_failure (st : CacheState) (t : Nat) (detail : String) :
    (missPath st t (.failure detail)).state =
      { st with cache_misses := st.cache_misses + 1 } := by
  unfold missPath
  cases hd : st.cached_data <;> simp [hd]
  split <;> rfl

/-- A failed refresh over a truthy cached document returns that document. -/
theorem missPath_failure_truthy (st : CacheState) (t : Nat) (detail : String)
    (d : Json) (hd : st.cached_data = some d) (ht : d.truthy = true) :
    (missPath st t (.failure detail)).result = .ok d := by
  unfold missPath
  simp [hd, ht]

/-- A failed refresh with no truthy cached document re-raises the fetch
exception. -/
theorem missPath_failure_falsy (st : CacheState) (t : Nat) (detail : String)
    (h : truthyData st.cached_data = false) :
    (missPath st t (.failure detail)).result = .error detail := by
  unfold missPath
  cases hd : st.cached_data with
  | none => simp [hd]
  | some d =>
    rw [hd] at h
    simp [truthyData] at h
    simp [hd, h]

/-! ## The claims -/

/-- C1 (counterexample): a stored payload exists (`cached_data = {}` is not
`None`), the call takes the miss path and the upstream fetch fails, yet the
error propagates instead of the stored payload being returned — because the
fallback test `if cached_data:` uses Python truthiness and an empty object
is falsy. -/
theorem C1_counterexample :
    (⟨0, some (.obj []), 0, 0⟩ : CacheState).cached_data ≠ none ∧
    cacheValid ⟨0, some (.obj []), 0, 0⟩ 1000 = false ∧
    (fetch_from_github ⟨0, some (.obj []), 0, 0⟩ 1000 (.failure "boom")).result =
      .error "boom" :=
  ⟨by simp, by decide, rfl⟩

/-- C1 (amended): on a miss-path call whose upstream fetch fails, a
previously stored *truthy* payload is returned without error (stale
fallback); if no payload exists or the stored payload is falsy, the fetch
error propagates to the caller. -/
theorem C1_stale_fallback (st : CacheState) (now : Nat) (detail : String)
    (hmiss : cacheValid st now = false) :
    (∀ d, st.cached_data = some d → d.truthy = true →
      (fetch_from_github st now (.failure detail)).result = .ok d) ∧
    (truthyData st.cached_data = false →
      (fetch_from_github st now (.failure detail)).result = .error detail) := by
  rw [fetch_miss st now _ hmiss]
  exact ⟨fun d hd ht => missPath_failure_truthy st now detail d hd ht,
         fun hfalsy => missPath_failure_falsy st now detail hfalsy⟩

/-- C1 (witness): the stale-fallback theorem applied to an expired truthy
cache entry, and to an empty cache. -/
theorem C1_stale_fallback_witness :
    (fetch_from_github ⟨0, some (.num 1), 0, 0⟩ 1000 (.failure "boom")).result =
      .ok (.num 1) ∧
    (fetch_from_github ⟨0, none, 5, 5⟩ 1000 (.failure "boom")).result =
      .error "boom" :=
  ⟨(C1_stale_fallback ⟨0, some (.num 1), 0, 0⟩ 1000 "boom" (by decide)).1
      (.num 1) rfl (by decide),
   (C1_stale_fallback ⟨0, none, 5, 5⟩ 1000 "boom" (by decide)).2 (by decide)⟩

/-- C2: whenever the UTF-8 bit count of the input is not a multiple of 5,
`custom_encode` ends with the symbol of the remaining bits left-shifted to a
full 5-bit group followed by exactly one padding character, and no padding
character appears anywhere else; when the bit count is a multiple of 5 no
padding character is emitted at all. -/
theorem C2_single_pad (s : String) :
    ((8 * (utf8Bytes s).length) % 5 = 0 → '=' ∉ (custom_encode s).data) ∧
    ((8 * (utf8Bytes s).length) % 5 ≠ 0 →
      ∃ body, (custom_encode s).data =
          body ++ [charset.getD
            ((base256 (utf8Bytes s) % 2 ^ ((8 * (utf8Bytes s).length) % 5)) <<<
              (5 - (8 * (utf8Bytes s).length) % 5)) 'A', '='] ∧
        '=' ∉ body) := by
  obtain ⟨mid, heq, hlen, hmem⟩ :=
    encodeLoop_spec (utf8Bytes s) [] 0 0 (utf8Bytes_lt s) (by norm_num) (by norm_num)
  have hnomem : '=' ∉ mid := fun hc => pad_not_mem_charset (hmem _ hc)
  unfold custom_encode
  rw [heq]
  dsimp only
  simp only [Nat.zero_add, Nat.zero_mul, List.nil_append]
  constructor
  · intro hr
    rw [if_neg (by omega)]
    exact hnomem
  · intro hr
    rw [if_pos (by omega)]
    have hXlt : base256 (utf8Bytes s) % 2 ^ ((8 * (utf8Bytes s).length) % 5) <
        2 ^ ((8 * (utf8Bytes s).length) % 5) := Nat.mod_lt _ (Nat.two_pow_pos _)
    have hR : (8 * (utf8Bytes s).length) % 5 < 5 := Nat.mod_lt _ (by norm_num)
    have h32 : (base256 (utf8Bytes s) % 2 ^ ((8 * (utf8Bytes s).length) % 5)) <<<
        (5 - (8 * (utf8Bytes s).length) % 5) < 2 ^ 5 := by
      have hm := Nat.mul_lt_mul_of_pos_right hXlt
        (Nat.two_pow_pos (5 - (8 * (utf8Bytes s).length) % 5))
      rw [← pow_add] at hm
      rw [Nat.shiftLeft_eq]
      have heq5 : (8 * (utf8Bytes s).length) % 5 +
          (5 - (8 * (utf8Bytes s).length) % 5) = 5 := by omega
      rw [heq5] at hm
      exact hm
    rw [show (31 : Nat) = 2 ^ 5 - 1 from by norm_num,
      Nat.and_pow_two_sub_one_of_lt_two_pow h32]
    exact ⟨mid, rfl, hnomem⟩

/-- C2 (witness): the padding theorem applied to the empty string (bit count
0, no padding) and to `"f"` (bit count 8, one padding character after the
shifted final symbol). -/
theorem C2_single_pad_witness :
    '=' ∉ (custom_encode "").data ∧
    (∃ body, (custom_encode "f").data =
        body ++ [charset.getD
          ((base256 (utf8Bytes "f") % 2 ^ ((8 * (utf8Bytes "f").length) % 5)) <<<
            (5 - (8 * (utf8Bytes "f").length) % 5)) 'A', '='] ∧
      '=' ∉ body) :=
  ⟨(C2_single_pad "").1 (by decide), (C2_single_pad "f").2 (by decide)⟩

/-- C3: for every input string, the length of `custom_encode s` is
`⌈8·n/5⌉` symbols (`n` the UTF-8 byte count) plus one more character
exactly when `8·n` is not a multiple of 5; the empty string encodes to the
empty string with no padding. -/
theorem C3_encode_length (s : String) :
    (custom_encode s).length =
      (8 * (utf8Bytes s).length + 4) / 5 +
        (if (8 * (utf8Bytes s).length) % 5 = 0 then 0 else 1) ∧
    custom_encode "" = "" := by
  refine ⟨?_, by simp [custom_encode, utf8Bytes, encodeLoop]⟩
  obtain ⟨mid, heq, hlen, -⟩ :=
    encodeLoop_spec (utf8Bytes s) [] 0 0 (utf8Bytes_lt s) (by norm_num) (by norm_num)
  unfold custom_encode
  rw [heq]
  dsimp only
  simp only [Nat.zero_add, Nat.zero_mul, List.nil_append] at hlen ⊢
  by_cases hr : (8 * (utf8Bytes s).length) % 5 = 0
  · rw [if_neg (show ¬ 0 < (8 * (utf8Bytes s).length) % 5 by omega), if_pos hr]
    simp only [String.length]
    omega
  · rw [if_pos (show 0 < (8 * (utf8Bytes s).length) % 5 by omega), if_neg hr]
    simp only [String.length, List.length_append, List.length_cons, List.length_nil]
    omega

/-- C4 (counterexample): a payload exists (`cached_data = {}`) and its age
(0 seconds) is below 600, yet the call takes the miss path: the upstream
request is issued, the hit counter stays unchanged and the miss counter
increments — because the hit test of line 59 requires Python truthiness,
not mere presence. -/
theorem C4_counterexample :
    (⟨100, some (.obj []), 0, 0⟩ : CacheState).cached_data ≠ none ∧
    100 - (⟨100, some (.obj []), 0, 0⟩ : CacheState).last_fetch_time < CACHE_DURATION ∧
    (fetch_from_github ⟨100, some (.obj []), 0, 0⟩ 100 (.failure "down")).upstreamCalled
      = true ∧
    (fetch_from_github ⟨100, some (.obj []), 0, 0⟩ 100 (.failure "down")).state.cache_hits
      = 0 ∧
    (fetch_from_github ⟨100, some (.obj []), 0, 0⟩ 100 (.failure "down")).state.cache_misses
      = 1 :=
  ⟨by simp, by decide, rfl, rfl, rfl⟩

/-- C4 (amended): for every fetch call made while a *truthy* payload exists
whose age is strictly below 600 seconds, the hit counter increments by one,
the cached payload is returned, no upstream call is made, and payload, fetch
time and miss counter are unchanged. -/
theorem C4_cache_hit (st : CacheState) (now : Nat) (u : UpstreamResult) (d : Json)
    (hd : st.cached_data = some d) (ht : d.truthy = true)
    (hage : now - st.last_fetch_time < CACHE_DURATION) :
    (fetch_from_github st now u).state.cache_hits = st.cache_hits + 1 ∧
    (fetch_from_github st now u).result = .ok d ∧
    (fetch_from_github st now u).upstreamCalled = false ∧
    (fetch_from_github st now u).state.cached_data = st.cached_data ∧
    (fetch_from_github st now u).state.last_fetch_time = st.last_fetch_time ∧
    (fetch_from_github st now u).state.cache_misses = st.cache_misses := by
  unfold fetch_from_github
  simp [hd, ht, hage]

/-- C4 (witness): the cache-hit theorem applied to a 100-second-old truthy
entry. -/
theorem C4_cache_hit_witness :
    (fetch_from_github ⟨100, some (.num 7), 3, 4⟩ 200 (.failure "x")).state.cache_hits
      = 3 + 1 ∧
    (fetch_from_github ⟨100, some (.num 7), 3, 4⟩ 200 (.failure "x")).result
      = .ok (.num 7) ∧
    (fetch_from_github ⟨100, some (.num 7), 3, 4⟩ 200 (.failure "x")).upstreamCalled
      = false ∧
    (fetch_from_github ⟨100, some (.num 7), 3, 4⟩ 200 (.failure "x")).state.cached_data
      = some (.num 7) ∧
    (fetch_from_github ⟨100, some (.num 7), 3, 4⟩ 200 (.failure "x")).state.last_fetch_time
      = 100 ∧
    (fetch_from_github ⟨100, some (.num 7), 3, 4⟩ 200 (.failure "x")).state.cache_misses
      = 4 :=
  C4_cache_hit ⟨100, some (.num 7), 3, 4⟩ 200 (.failure "x") (.num 7)
    rfl (by decide) (by decide)

/-- C5: `custom_encode "f"` is exactly `"MY="`: byte 0x66 splits into the
group 01100 (12, symbol M) and the remainder 110 padded to 11000 (24,
symbol Y), followed by one padding character. -/
theorem C5_encode_f : custom_encode "f" = "MY=" := by
  simp [custom_encode, utf8Bytes, encodeLoop, drainBits, charset]
  decide

/-- C6: the first fetch call after process start (no payload, fetch time
unset) always takes the miss path: the upstream request is issued, the miss
counter increments by exactly one and the hit counter is unchanged —
whatever the clock says and however the upstream attempt turns out. -/
theorem C6_first_call_miss (now : Nat) (upstream : UpstreamResult) :
    (fetch_from_github initialState now upstream).upstreamCalled = true ∧
    (fetch_from_github initialState now upstream).state.cache_misses =
      initialState.cache_misses + 1 ∧
    (fetch_from_github initialState now upstream).state.cache_hits =
      initialState.cache_hits := by
  have h : fetch_from_github initialState now upstream =
      missPath initialState now upstream := fetch_miss _ _ _ rfl
  rw [h]
  refine ⟨missPath_called _ _ _, ?_, ?_⟩ <;>
    cases upstream <;>
      simp [missPath_state_success, missPath_state_failure, initialState]

/-- C7 (counterexample): on a fetch failure with no cached data, the
`/health` endpoint returns a 503 whose body's `error` field is exactly the
raw upstream exception text — the claim that no endpoint ever exposes the
raw detail is false. -/
theorem C7_counterexample :
    (health_check initialState 0 (.failure "connection refused") "t0").status = 503 ∧
    (health_check initialState 0 (.failure "connection refused") "t0").body.get "error"
      = some (.str "connection refused") :=
  ⟨rfl, rfl⟩

/-- C7 (amended): when the fetch raises, `/matches` answers 503 with only
its fixed generic message in the `error` field and `/encoded` answers 503
with its own fixed generic message, while `/health` answers 503 with the
raw exception detail `str(e)` in its `error` field — the propagation policy
holds for `/matches` and `/encoded` but not for `/health`. -/
theorem C7_error_detail (st : CacheState) (now : Nat) (detail e tstamp : String)
    (hfail : (fetch_from_github st now (.failure detail)).result = .error e) :
    (get_matches st now (.failure detail) tstamp).status = 503 ∧
    (get_matches st now (.failure detail) tstamp).body.get "error"
      = some (.str "Failed to fetch matches data") ∧
    (get_encoded_matches st now (.failure detail) tstamp).status = 503 ∧
    (get_encoded_matches st now (.failure detail) tstamp).body.get "error"
      = some (.str "Failed to encode matches data") ∧
    (health_check st now (.failure detail) tstamp).status = 503 ∧
    (health_check st now (.failure detail) tstamp).body.get "error"
      = some (.str e) := by
  unfold get_matches get_encoded_matches health_check
  simp only [hfail]
  simp [Json.get]

/-- C7 (witness): the amended theorem applied to a failing fetch on an empty
cache. -/
theorem C7_error_detail_witness :
    (get_matches initialState 0 (.failure "boom") "t0").status = 503 ∧
    (get_matches initialState 0 (.failure "boom") "t0").body.get "error"
      = some (.str "Failed to fetch matches data") ∧
    (get_encoded_matches initialState 0 (.failure "boom") "t0").status = 503 ∧
    (get_encoded_matches initialState 0 (.failure "boom") "t0").body.get "error"
      = some (.str "Failed to encode matches data") ∧
    (health_check initialState 0 (.failure "boom") "t0").status = 503 ∧
    (health_check initialState 0 (.failure "boom") "t0").body.get "error"
      = some (.str "boom") :=
  C7_error_detail initialState 0 "boom" "boom" "t0" rfl

/-- C8: every fetch call increments exactly one of the two counters by one
and leaves the other unchanged; in particular neither counter ever
decreases, over any sequence of calls. -/
theorem C8_counters_step (st : CacheState) (now : Nat) (u : UpstreamResult) :
    ((fetch_from_github st now u).state.cache_hits = st.cache_hits + 1 ∧
     (fetch_from_github st now u).state.cache_misses = st.cache_misses) ∨
    ((fetch_from_github st now u).state.cache_misses = st.cache_misses + 1 ∧
     (fetch_from_github st now u).state.cache_hits = st.cache_hits) := by
  by_cases h : cacheValid st now
  · left
    unfold fetch_from_github
    unfold cacheValid truthyData at h
    cases hd : st.cached_data with
    | none => rw [hd] at h; simp at h
    | some d => rw [hd] at h; simp [h]
  · right
    rw [fetch_miss st now u (by simpa using h)]
    cases u <;> simp [missPath_state_success, missPath_state_failure]

/-- C9: after a successful fetch stores a falsy document (such as an empty
object), every later call takes the miss path — at any clock value, so also
within 600 seconds — incrementing the miss counter and issuing the upstream
request; and when that upstream attempt fails, the stored falsy payload is
not used as a stale fallback: the error propagates as if nothing were
cached. -/
theorem C9_falsy_payload (st0 : CacheState) (t0 : Nat) (d : Json)
    (hmiss : cacheValid st0 t0 = false) (hfalsy : d.truthy = false) :
    (∀ t u, (fetch_from_github
        (fetch_from_github st0 t0 (.success d)).state t u).upstreamCalled = true) ∧
    (∀ t u, (fetch_from_github
        (fetch_from_github st0 t0 (.success d)).state t u).state.cache_misses =
      (fetch_from_github st0 t0 (.success d)).state.cache_misses + 1) ∧
    (∀ t detail, (fetch_from_github
        (fetch_from_github st0 t0 (.success d)).state t (.failure detail)).result =
      .error detail) := by
  rw [fetch_miss st0 t0 _ hmiss, missPath_state_success]
  have hvalid : ∀ t, cacheValid ⟨t0, some d, st0.cache_hits, st0.cache_misses + 1⟩ t
      = false := by
    intro t
    simp [cacheValid, truthyData, hfalsy]
  refine ⟨?_, ?_, ?_⟩
  · intro t u
    rw [fetch_miss _ t u (hvalid t)]
    exact missPath_called _ _ _
  · intro t u
    rw [fetch_miss _ t u (hvalid t)]
    cases u <;> simp [missPath_state_success, missPath_state_failure]
  · intro t detail
    rw [fetch_miss _ t _ (hvalid t)]
    exact missPath_failure_falsy _ _ _ (by simp [truthyData, hfalsy])

/-- C9 (witness): the falsy-payload theorem applied to an empty object
stored at time 50 and a failing refresh 10 seconds later. -/
theorem C9_falsy_payload_witness :
    (fetch_from_github
        (fetch_from_github ⟨0, none, 0, 0⟩ 50 (.success (.obj []))).state
        60 (.failure "down")).upstreamCalled = true ∧
    (fetch_from_github
        (fetch_from_github ⟨0, none, 0, 0⟩ 50 (.success (.obj []))).state
        60 (.failure "down")).result = .error "down" :=
  ⟨(C9_falsy_payload ⟨0, none, 0, 0⟩ 50 (.obj []) (by decide) (by decide)).1
      60 (.failure "down"),
   (C9_falsy_payload ⟨0, none, 0, 0⟩ 50 (.obj []) (by decide) (by decide)).2.2
      60 "down"⟩

/-- C10: a miss-path call whose upstream fetch fails leaves the stored
payload, the fetch time and the hit counter untouched; its only state change
is the single increment of the miss counter (and the upstream request was
issued). -/
theorem C10_failed_refresh_frame (st : CacheState) (now : Nat) (detail : String)
    (hmiss : cacheValid st now = false) :
    (fetch_from_github st now (.failure detail)).state.cached_data = st.cached_data ∧
    (fetch_from_github st now (.failure detail)).state.last_fetch_time =
      st.last_fetch_time ∧
    (fetch_from_github st now (.failure detail)).state.cache_hits = st.cache_hits ∧
    (fetch_from_github st now (.failure detail)).state.cache_misses =
      st.cache_misses + 1 ∧
    (fetch_from_github st now (.failure detail)).upstreamCalled = true := by
  rw [fetch_miss st now _ hmiss, missPath_state_failure]
  exact ⟨rfl, rfl, rfl, rfl, missPath_called _ _ _⟩

/-- C10 (witness): the failed-refresh frame theorem applied to an expired
truthy entry. -/
theorem C10_failed_refresh_frame_witness :
    (fetch_from_github ⟨20, some (.num 3), 1, 2⟩ 900 (.failure "down")).state.cached_data
      = some (.num 3) ∧
    (fetch_from_github ⟨20, some (.num 3), 1, 2⟩ 900 (.failure "down")).state.last_fetch_time
      = 20 ∧
    (fetch_from_github ⟨20, some (.num 3), 1, 2⟩ 900 (.failure "down")).state.cache_hits
      = 1 ∧
    (fetch_from_github ⟨20, some (.num 3), 1, 2⟩ 900 (.failure "down")).state.cache_misses
      = 2 + 1 ∧
    (fetch_from_github ⟨20, some (.num 3), 1, 2⟩ 900 (.failure "down")).upstreamCalled
      = true :=
  C10_failed_refresh_frame ⟨20, some (.num 3), 1, 2⟩ 900 "down" (by decide)

end FootballApi
